import Mathlib

/-!
Verification of the GPU frame-lifecycle and resource-orchestration engine
of the VulkanPlayground repository, against its natural-language
specification.  The development shallowly embeds the engine's state and
operations: `EngineState` mirrors the members of `engine::Engine`
(`Engine.hpp`), and each Lean function mirrors the corresponding C++
member function.  Vulkan handles are abstracted to counters or abstract
values; calls into the Vulkan driver that destroy objects are recorded as
explicit `DestroyEvent`s so that destruction order can be reasoned about.
-/

set_option maxRecDepth 4096
set_option linter.unusedVariables false

namespace VulkanPlayground

/-! ## Queue family discovery (`PhysicalDeviceProperties.cpp`) -/

/-- One entry of the array returned by
`vkGetPhysicalDeviceQueueFamilyProperties`, together with the result of
the per-index `vkGetPhysicalDeviceSurfaceSupportKHR` query against the
target surface (`presentSupport`). -/
structure QueueFamilyProps where
  queueCount : Nat
  graphics : Bool
  transfer : Bool
  presentSupport : Bool
deriving DecidableEq, Repr

/-- Mirrors `engine::QueueFamilyIndices` (PhysicalDeviceProperties.hpp):
three `int` indices initialised to `-1`. -/
structure QueueFamilyIndices where
  graphicsFamily : Int := -1
  presentingFamily : Int := -1
  transferFamily : Int := -1
deriving DecidableEq, Repr

/-- Mirrors `QueueFamilyIndices::isComplete`. -/
def QueueFamilyIndices.isComplete (q : QueueFamilyIndices) : Bool :=
  q.graphicsFamily ≥ 0 && q.presentingFamily ≥ 0

/-- Mirrors `QueueFamilyIndices::transferAvailable`. -/
def QueueFamilyIndices.transferAvailable (q : QueueFamilyIndices) : Bool :=
  q.transferFamily ≥ 0 && q.transferFamily ≠ q.graphicsFamily

/-- Loop body of `engine::findQueueFamilies`
(PhysicalDeviceProperties.cpp, lines 19-47): each family with non-zero
queue count overwrites the recorded index for every capability it offers;
after the assignments, the scan stops when
`indices.isComplete() && indices.transferAvailable()`. -/
def findQueueFamiliesAux : List QueueFamilyProps → Nat → QueueFamilyIndices → QueueFamilyIndices
  | [], _, ind => ind
  | f :: rest, index, ind =>
    let ind1 := if f.queueCount > 0 && f.graphics then
        { ind with graphicsFamily := (index : Int) } else ind
    let ind2 := if f.queueCount > 0 && f.transfer then
        { ind1 with transferFamily := (index : Int) } else ind1
    let ind3 := if f.queueCount > 0 && f.presentSupport then
        { ind2 with presentingFamily := (index : Int) } else ind2
    if ind3.isComplete && ind3.transferAvailable then ind3
    else findQueueFamiliesAux rest (index + 1) ind3

/-- Mirrors `engine::findQueueFamilies(device, surface)`: the queue-family
array and the per-index present-support answers are abstracted into the
input list. -/
def findQueueFamilies (families : List QueueFamilyProps) : QueueFamilyIndices :=
  findQueueFamiliesAux families 0 {}

/-- Index of the first family with non-zero queue count satisfying `p`,
or `-1` when none exists.  This follows the specification's words for
queue-family discovery ("record the first index offering ...", claim C3);
the source is compared against it. -/
def firstFamilyIdxAux (p : QueueFamilyProps → Bool) : List QueueFamilyProps → Nat → Int
  | [], _ => -1
  | f :: rest, index =>
    if f.queueCount > 0 && p f then (index : Int)
    else firstFamilyIdxAux p rest (index + 1)

/-- First-index selection from the spec's words, starting at index 0. -/
def firstFamilyIdx (p : QueueFamilyProps → Bool) (families : List QueueFamilyProps) : Int :=
  firstFamilyIdxAux p families 0

/-- Reference formulation of the amended claim C3, written from the
amended wording: scan once carrying three indices `g`, `t`, `p`; a family
with non-zero queue count overwrites the index of every capability it
offers; the scan stops as soon as the graphics and presentation indices
are valid and a transfer index valid and distinct from the graphics index
has been recorded. -/
def findQueueFamiliesAmendedAux : List QueueFamilyProps → Nat → Int → Int → Int → Int × Int × Int
  | [], _, g, t, p => (g, t, p)
  | f :: rest, index, g, t, p =>
    let g1 := if f.queueCount > 0 && f.graphics then (index : Int) else g
    let t1 := if f.queueCount > 0 && f.transfer then (index : Int) else t
    let p1 := if f.queueCount > 0 && f.presentSupport then (index : Int) else p
    if g1 ≥ 0 && p1 ≥ 0 && (t1 ≥ 0 && t1 ≠ g1) then (g1, t1, p1)
    else findQueueFamiliesAmendedAux rest (index + 1) g1 t1 p1

/-- Amended-claim reference for queue-family discovery. -/
def findQueueFamiliesAmended (families : List QueueFamilyProps) : Int × Int × Int :=
  findQueueFamiliesAmendedAux families 0 (-1) (-1) (-1)

/-! ## Sharing-mode policy (`utils.cpp`) -/

/-- VkSharingMode values used by the repository. -/
inductive SharingMode where
  | exclusive
  | concurrent
deriving DecidableEq, Repr

/-- Fields of `VkBufferCreateInfo` that `utils::createBuffer` fills in
and that the sharing-mode policy concerns. -/
structure BufferCreateInfo where
  size : Nat
  sharingMode : SharingMode
  queueFamilyIndices : List Int
  queueFamilyIndexCount : Nat
deriving DecidableEq, Repr

/-- Mirrors `utils::createBuffer` (utils.cpp, lines 86-133): concurrent
sharing across graphics and transfer families exactly when
`indices.transferAvailable()`, exclusive otherwise. -/
def createBuffer (indices : QueueFamilyIndices) (size : Nat) : BufferCreateInfo :=
  if indices.transferAvailable then
    { size := size
      sharingMode := SharingMode.concurrent
      queueFamilyIndices := [indices.graphicsFamily, indices.transferFamily]
      queueFamilyIndexCount := 2 }
  else
    { size := size
      sharingMode := SharingMode.exclusive
      queueFamilyIndices := [indices.graphicsFamily]
      queueFamilyIndexCount := 1 }

/-- Fields of `VkImageCreateInfo` that `utils::createImage` fills in and
that the sharing-mode policy concerns. -/
structure ImageCreateInfo where
  width : Nat
  height : Nat
  sharingMode : SharingMode
deriving DecidableEq, Repr

/-- Mirrors `utils::createImage` (utils.cpp, lines 135-181): the image is
always created with `VK_SHARING_MODE_EXCLUSIVE` (line 162); the function
does not even receive the queue family indices. -/
def createImage (width height : Nat) : ImageCreateInfo :=
  { width := width, height := height, sharingMode := SharingMode.exclusive }

/-! ## Engine state (`Engine.hpp`) -/

/-- Mirrors `Engine::MAX_FRAMES_IN_FLIGHT` (Engine.hpp, line 65). -/
def MAX_FRAMES_IN_FLIGHT : Nat := 2

/-- Validation layers are enabled unless `NDEBUG` is defined
(Engine.hpp, lines 19-23); the debug configuration is modelled. -/
def ENABLE_VALIDATION_LAYERS : Bool := true

/-- Host-observable fence state.  `vkCreateFence` with
`VK_FENCE_CREATE_SIGNALED_BIT` yields `signaled = true`; a
`vkWaitForFences` call returns immediately exactly when the fence is
already signaled, and blocks otherwise. -/
structure VkFence where
  signaled : Bool
deriving DecidableEq, Repr

/-- Models the blocking behaviour of `vkWaitForFences` with unbounded
timeout: the wait blocks exactly when the fence is unsignaled. -/
def fenceWaitBlocks (f : VkFence) : Bool := !f.signaled

/-- The `VkResult` values relevant to acquisition and presentation. -/
inductive VkResult where
  | success
  | notReady
  | timeout
  | suboptimalKHR
  | errorOutOfDateKHR
  | errorDeviceLost
deriving DecidableEq, Repr

/-- Mirrors `Engine::ApplicationStateChange` (Engine.hpp, lines 29-33):
two `bool` fields, `materialModified` declared first. -/
structure ApplicationStateChange where
  materialModified : Bool := false
  modelModified : Bool := false
deriving DecidableEq, Repr

/-- The fields of `ApplicationStateChange` in declaration (memory layout)
order, as traversed by the byte scan of `Engine::checkApplicationState`. -/
inductive AppStateField where
  | materialModified
  | modelModified
deriving DecidableEq, Repr

/-- Byte layout of `ApplicationStateChange`: offset 0 holds
`materialModified`, offset `sizeof(bool)` holds `modelModified`. -/
def appStateLayout : List AppStateField :=
  [AppStateField.materialModified, AppStateField.modelModified]

/-- One recorded command of a secondary command buffer
(`Engine::createSecondaryCommandBuffers`, Engine.cpp lines 1145-1168).
`bindDescriptorSets` carries the index of the uniform buffer that the
bound descriptor set references. -/
inductive DrawCmd where
  | setViewport
  | bindPipeline
  | bindVertexBuffers (binding : Nat) (offset : Nat)
  | bindIndexBuffer (offset : Nat)
  | bindDescriptorSets (uniformBufferRef : Nat)
  | drawIndexed (indexCount : Nat)
deriving DecidableEq, Repr

/-- Destruction calls issued by the engine, in the order they appear in
the teardown code; used to reason about destruction order. -/
inductive DestroyEvent where
  | framebuffer (i : Nat)
  | freeSecondaryCommandBuffers
  | freePrimaryCommandBuffers
  | depthImageView
  | depthImage
  | depthMemory
  | colorImageView
  | colorImage
  | colorMemory
  | pipeline
  | pipelineLayout
  | renderPass
  | imageView (i : Nat)
  | swapchain
  | descriptorPool
  | imguiDescriptorPool
  | descriptorSetLayout
  | uniformBuffer (i : Nat)
  | uniformBufferMemory (i : Nat)
  | vertexBuffer
  | vertexBufferMemory
  | indexBuffer
  | indexBufferMemory
  | imageAvailableSemaphore (i : Nat)
  | renderFinishedSemaphore (i : Nat)
  | inFlightFence (i : Nat)
  | commandPool
  | commandPoolTransfert
  | device
  | surface
  | debugMessenger
  | vkInstance
deriving DecidableEq, Repr

/-- The engine members relevant to the verified claims, mirroring
`engine::Engine` (Engine.hpp).  Vector members are abstracted to their
element counts, except the uniform buffers (list of abstract buffer
contents), the descriptor sets (list of referenced uniform-buffer
indices), the secondary-command-buffer recordings and the fences.
`isCleaned` defaults to `true` as in Engine.hpp line 124. -/
structure EngineState where
  images : Nat := 0
  imageViews : Nat := 0
  framebuffers : Nat := 0
  uniformBuffers : List Nat := []
  descriptorSets : List Nat := []
  commandBuffers : Nat := 0
  commandBufferSecondary : Nat := 0
  secondaryRecordings : List (List DrawCmd) := []
  inFlightFences : List VkFence := []
  currentFrame : Nat := 0
  framebufferResize : Bool := false
  isCleaned : Bool := true
  indices : QueueFamilyIndices := {}
  meshFaceCount : Nat := 0
  applicationChanges : ApplicationStateChange := {}
deriving DecidableEq, Repr

/-! ## Creation functions (`Engine.cpp`) -/

/-- Mirrors `VkSurfaceCapabilitiesKHR` fields used by the image-count
computation; `maxImageCount = 0` means unbounded. -/
structure SurfaceCapabilities where
  minImageCount : Nat
  maxImageCount : Nat
deriving DecidableEq, Repr

/-- Image count requested from the driver by `Engine::createSwapChain`
(Engine.cpp, lines 388-394). -/
def requestedImageCount (caps : SurfaceCapabilities) : Nat :=
  let count := caps.minImageCount + 1
  if caps.maxImageCount > 0 ∧ count > caps.maxImageCount then caps.maxImageCount else count

/-- Mirrors the tail of `Engine::createSwapChain` (Engine.cpp, lines
429-442): `retrieved` is the image count reported back by
`vkGetSwapchainImagesKHR` for the newly created chain; the images vector
is resized to it and one image view is created per image. -/
def createSwapChainState (retrieved : Nat) (s : EngineState) : EngineState :=
  { s with images := retrieved, imageViews := retrieved }

/-- Mirrors `Engine::createFramebuffers` (Engine.cpp, lines 551-576):
one framebuffer per swapchain image view. -/
def createFramebuffersState (s : EngineState) : EngineState :=
  { s with framebuffers := s.imageViews }

/-- Mirrors `Engine::createUniformBuffer` (Engine.cpp, lines 986-1007):
one uniform buffer per image view; contents start as the abstract
value `0` (uninitialised). -/
def createUniformBufferState (s : EngineState) : EngineState :=
  { s with uniformBuffers := List.replicate s.imageViews 0 }

/-- Mirrors `Engine::createDescriptorSets` (Engine.cpp, lines 1062-1110):
one descriptor set per swapchain image, and the write loop makes
descriptor set `i` reference `m_uniformBuffers[i]`; the list records,
per set, the index of the uniform buffer it references. -/
def createDescriptorSetsState (s : EngineState) : EngineState :=
  { s with descriptorSets := List.range s.images }

/-- Mirrors `Engine::createPrimaryCommandBuffer` (Engine.cpp, lines
1174-1185): one primary command buffer per framebuffer. -/
def createPrimaryCommandBufferState (s : EngineState) : EngineState :=
  { s with commandBuffers := s.framebuffers }

/-- Commands recorded into the secondary command buffer for image `i`
(Engine.cpp, lines 1145-1168).  Note the source binds
`&m_descriptorSets[0]` for every `i` (line 1161), and draws
`m_mesh.faces.size() * 3` indices (line 1166). -/
def secondaryCommandsFor (descriptorSets : List Nat) (meshFaceCount : Nat) (i : Nat) : List DrawCmd :=
  [DrawCmd.setViewport,
   DrawCmd.bindPipeline,
   DrawCmd.bindVertexBuffers 0 0,
   DrawCmd.bindIndexBuffer 0,
   DrawCmd.bindDescriptorSets (descriptorSets.getD 0 0),
   DrawCmd.drawIndexed (meshFaceCount * 3)]

/-- Mirrors `Engine::createSecondaryCommandBuffers` (Engine.cpp, lines
1116-1172): the vector is resized to the framebuffer count and the
recording loop runs over `m_commandBuffers.size()`. -/
def createSecondaryCommandBuffersState (s : EngineState) : EngineState :=
  { s with
      commandBufferSecondary := s.framebuffers
      secondaryRecordings :=
        (List.range s.commandBuffers).map (secondaryCommandsFor s.descriptorSets s.meshFaceCount) }

/-- Mirrors `Engine::createSyncObjects` (Engine.cpp, lines 1232-1253):
`MAX_FRAMES_IN_FLIGHT` fences, each created with
`VK_FENCE_CREATE_SIGNALED_BIT` (line 1244). -/
def createSyncObjectsState (s : EngineState) : EngineState :=
  { s with inFlightFences := (List.range MAX_FRAMES_IN_FLIGHT).map (fun _ => { signaled := true }) }

/-- Mirrors the part of `Engine::initVulkan` (Engine.cpp, lines 137-161)
that touches the modelled state, in call order.  `createRenderPass`,
`createGraphicsPipeline`, `createCommandPool`, `createDepthRessources`,
`createColorRessources`, `createVertexBuffer`, `createVertexIndexBuffer`
and `createDescriptorPool` change no modelled member. -/
def initVulkanState (retrieved : Nat) (s : EngineState) : EngineState :=
  let s1 := createSwapChainState retrieved s
  let s2 := createFramebuffersState s1
  let s3 := createUniformBufferState s2
  let s4 := createDescriptorSetsState s3
  let s5 := createPrimaryCommandBufferState s4
  let s6 := createSecondaryCommandBuffersState s5
  createSyncObjectsState s6

/-! ## Teardown (`Engine.cpp`, lines 1334-1433) -/

/-- Destruction calls of `Engine::cleanUpSwapChain` (Engine.cpp, lines
1349-1378) in source order: the framebuffer loop, the two
`vkFreeCommandBuffers` calls, the depth attachment (view, image,
memory), the colour attachment (view, image, memory), pipeline, pipeline
layout, render pass, the image-view loop, and the chain itself.  Loops
are modelled as folds appending one event per iteration. -/
def cleanUpSwapChainEvents (s : EngineState) : List DestroyEvent :=
  ((List.range s.framebuffers).foldl (fun acc i => acc ++ [DestroyEvent.framebuffer i]) [])
  ++ [DestroyEvent.freeSecondaryCommandBuffers, DestroyEvent.freePrimaryCommandBuffers]
  ++ [DestroyEvent.depthImageView, DestroyEvent.depthImage, DestroyEvent.depthMemory]
  ++ [DestroyEvent.colorImageView, DestroyEvent.colorImage, DestroyEvent.colorMemory]
  ++ [DestroyEvent.pipeline, DestroyEvent.pipelineLayout, DestroyEvent.renderPass]
  ++ ((List.range s.imageViews).foldl (fun acc i => acc ++ [DestroyEvent.imageView i]) [])
  ++ [DestroyEvent.swapchain]

/-- Destruction calls of `Engine::cleanup` (Engine.cpp, lines 1385-1431),
issued only when the guard is not yet set. -/
def cleanupEvents (s : EngineState) : List DestroyEvent :=
  cleanUpSwapChainEvents s
  ++ [DestroyEvent.descriptorPool, DestroyEvent.imguiDescriptorPool, DestroyEvent.descriptorSetLayout]
  ++ ((List.range s.images).foldl
        (fun acc i => acc ++ [DestroyEvent.uniformBuffer i, DestroyEvent.uniformBufferMemory i]) [])
  ++ [DestroyEvent.vertexBuffer, DestroyEvent.vertexBufferMemory,
      DestroyEvent.indexBuffer, DestroyEvent.indexBufferMemory]
  ++ ((List.range MAX_FRAMES_IN_FLIGHT).foldl
        (fun acc i => acc ++ [DestroyEvent.imageAvailableSemaphore i,
                              DestroyEvent.renderFinishedSemaphore i,
                              DestroyEvent.inFlightFence i]) [])
  ++ [DestroyEvent.commandPool]
  ++ (if s.indices.transferAvailable then [DestroyEvent.commandPoolTransfert] else [])
  ++ [DestroyEvent.device, DestroyEvent.surface]
  ++ (if ENABLE_VALIDATION_LAYERS then [DestroyEvent.debugMessenger] else [])
  ++ [DestroyEvent.vkInstance]

/-- Mirrors `Engine::cleanup` (Engine.cpp, lines 1380-1433): guarded by
`m_isCleaned`; when the guard is clear, it is set and the destruction
sequence runs (the C++ never clears the vectors, so the modelled members
other than the guard are unchanged).  Returns the new state together
with the destruction calls performed. -/
def cleanup (s : EngineState) : EngineState × List DestroyEvent :=
  if s.isCleaned then (s, [])
  else ({ s with isCleaned := true }, cleanupEvents s)

/-! ## Frame loop (`Engine.cpp`, lines 52-125, 881-892, 1009-1036, 1255-1272) -/

/-- Mirrors `Engine::recreateCommandBuffer` (Engine.cpp, lines 881-892):
device-idle wait, free both command-buffer sets, then re-create and
re-record them. -/
def recreateCommandBufferState (s : EngineState) : EngineState :=
  createSecondaryCommandBuffersState (createPrimaryCommandBufferState s)

/-- Loop body of `Engine::checkApplicationState` (Engine.cpp, lines
1255-1272): the byte scan walks the fields of `ApplicationStateChange`
in layout order; at the `modelModified` byte it either re-records the
command buffers and clears the flag (when set) or returns at once (the
second branch's `state` pointer test is always true), and at any other
byte it does nothing and continues. -/
def checkApplicationStateLoop : List AppStateField → EngineState → EngineState
  | [], s => s
  | f :: rest, s =>
    if f = AppStateField.modelModified ∧ s.applicationChanges.modelModified = true then
      let s1 := recreateCommandBufferState s
      { s1 with applicationChanges := { s1.applicationChanges with modelModified := false } }
    else if f = AppStateField.modelModified then s
    else checkApplicationStateLoop rest s

/-- Mirrors `Engine::checkApplicationState`. -/
def checkApplicationState (s : EngineState) : EngineState :=
  checkApplicationStateLoop appStateLayout s

/-- Mirrors `vkResetFences` on the fence of slot `i`. -/
def resetFenceState (i : Nat) (s : EngineState) : EngineState :=
  { s with inFlightFences :=
      s.inFlightFences.mapIdx (fun j f => if j = i then { signaled := false } else f) }

/-- Mirrors `Engine::updateUniformBuffer` (Engine.cpp, lines 1009-1036):
the `imageIndex` parameter is ignored; the loop writes the same freshly
computed uniform data (abstracted as `ubo`) into the buffer of every
index below `m_swapchainData.imageViews.size()`. -/
def updateUniformBufferState (ubo : Nat) (imageIndex : Nat) (s : EngineState) : EngineState :=
  { s with uniformBuffers :=
      s.uniformBuffers.mapIdx (fun i old => if i < s.imageViews then ubo else old) }

/-- Mirrors `Engine::recreateSwapChain` (Engine.cpp, lines 1334-1347):
device-idle wait, `cleanUpSwapChain` (destroys handles; the modelled
members are untouched because the C++ vectors are not cleared), then
`createSwapChain`, `createRenderPass`, `createGraphicsPipeline`,
`createDepthRessources`, `createColorRessources` (no modelled members),
`createFramebuffers`, `createPrimaryCommandBuffer` and
`createSecondaryCommandBuffers`.  `createUniformBuffer`,
`createDescriptorSets` and `createSyncObjects` are not called. -/
def recreateSwapChainState (retrieved : Nat) (s : EngineState) : EngineState :=
  let s1 := createSwapChainState retrieved s
  let s2 := createFramebuffersState s1
  let s3 := createPrimaryCommandBufferState s2
  createSecondaryCommandBuffersState s3

/-- Side effects of one `drawFrame` call: how many `vkQueueSubmit` and
`vkQueuePresentKHR` calls were issued, and whether the swapchain was
rebuilt. -/
structure FrameEffects where
  submitCount : Nat
  presentCount : Nat
  swapchainRecreated : Bool
deriving DecidableEq, Repr

/-- Mirrors `Engine::drawFrame` (Engine.cpp, lines 52-125).  The driver
responses are inputs: `acquireResult` and `imageIndex` stand for the
result and output of `vkAcquireNextImageKHR`, `presentResult` for the
result of `vkQueuePresentKHR`, `freshUbo` for the freshly computed
uniform data, and `retrievedImageCount` for the image count a rebuild
would retrieve.  Thrown `std::runtime_error`s become `Except.error`. -/
def drawFrame (acquireResult : VkResult) (imageIndex : Nat) (presentResult : VkResult)
    (freshUbo : Nat) (retrievedImageCount : Nat) (s : EngineState) :
    Except String (EngineState × FrameEffects) :=
  let sA := checkApplicationState s
  let sB := resetFenceState sA.currentFrame sA
  if acquireResult = VkResult.errorOutOfDateKHR then
    Except.ok (recreateSwapChainState retrievedImageCount sB,
      { submitCount := 0, presentCount := 0, swapchainRecreated := true })
  else if acquireResult ≠ VkResult.success ∧ acquireResult ≠ VkResult.suboptimalKHR then
    Except.error "failed to acquire swap chain image!"
  else
    let sC := updateUniformBufferState freshUbo imageIndex sB
    let sD := resetFenceState sC.currentFrame sC
    if presentResult = VkResult.errorOutOfDateKHR ∨ presentResult = VkResult.suboptimalKHR
        ∨ sD.framebufferResize = true then
      let sE := recreateSwapChainState retrievedImageCount { sD with framebufferResize := false }
      Except.ok ({ sE with currentFrame := (sE.currentFrame + 1) % MAX_FRAMES_IN_FLIGHT },
        { submitCount := 1, presentCount := 1, swapchainRecreated := true })
    else if presentResult ≠ VkResult.success then
      Except.error "failed to present swap chain image!"
    else
      Except.ok ({ sD with currentFrame := (sD.currentFrame + 1) % MAX_FRAMES_IN_FLIGHT },
        { submitCount := 1, presentCount := 1, swapchainRecreated := false })

/-- Repackaging of the triple returned by the amended-claim reference for
queue-family discovery into a `QueueFamilyIndices` record. -/
def toQueueFamilyIndices (r : Int × Int × Int) : QueueFamilyIndices :=
  { graphicsFamily := r.1, presentingFamily := r.2.2, transferFamily := r.2.1 }

/-- A device with two queue families, both with non-zero queue count and
both offering graphics, transfer and presentation. -/
def c3Families : List QueueFamilyProps :=
  [{ queueCount := 1, graphics := true, transfer := true, presentSupport := true },
   { queueCount := 1, graphics := true, transfer := true, presentSupport := true }]

deriving instance DecidableEq for Except

/-! ## Helper lemmas -/

theorem foldl_append_map {α β : Type} (f : α → β) :
    ∀ (l : List α) (acc : List β),
      l.foldl (fun a x => a ++ [f x]) acc = acc ++ l.map f
  | [], acc => by simp
  | x :: l, acc => by
    simp [List.foldl_cons, foldl_append_map f l]

theorem mapIdx_eq_replicate {α : Type} (l : List α) (g : Nat → α → α) (c : α)
    (h : ∀ (i : Nat) (a : α), i < l.length → g i a = c) :
    l.mapIdx g = List.replicate l.length c := by
  rw [List.mapIdx_eq_ofFn]
  have hfun : (fun i : Fin l.length => g i.1 (l.get i)) = fun _ => c := by
    funext i
    exact h i.1 (l.get i) i.isLt
  rw [hfun, List.ofFn_const]

theorem checkApplicationState_eq (s : EngineState) :
    checkApplicationState s =
      if s.applicationChanges.modelModified = true then
        { recreateCommandBufferState s with
            applicationChanges :=
              { (recreateCommandBufferState s).applicationChanges with modelModified := false } }
      else s := by
  by_cases h : s.applicationChanges.modelModified = true <;>
    simp [checkApplicationState, checkApplicationStateLoop, appStateLayout, h]

theorem checkApplicationState_currentFrame (s : EngineState) :
    (checkApplicationState s).currentFrame = s.currentFrame := by
  rw [checkApplicationState_eq]
  by_cases h : s.applicationChanges.modelModified = true <;>
    simp [h, recreateCommandBufferState, createPrimaryCommandBufferState,
      createSecondaryCommandBuffersState]

theorem findQueueFamiliesAux_amended (families : List QueueFamilyProps) :
    ∀ (index : Nat) (ind : QueueFamilyIndices),
      findQueueFamiliesAux families index ind =
        toQueueFamilyIndices
          (findQueueFamiliesAmendedAux families index
            ind.graphicsFamily ind.transferFamily ind.presentingFamily) := by
  induction families with
  | nil => intro index ind; rfl
  | cons f rest ih =>
    intro index ind
    simp only [findQueueFamiliesAux, findQueueFamiliesAmendedAux,
      QueueFamilyIndices.isComplete, QueueFamilyIndices.transferAvailable,
      toQueueFamilyIndices]
    split_ifs <;> simp_all [toQueueFamilyIndices] <;> split_ifs <;> simp_all

/-! ## Claim C1 -/

/-- Counterexample to claim C1: start from the state built by
`Engine::initVulkan` when the chain reports 3 images, then let
`drawFrame` hit `VK_ERROR_OUT_OF_DATE_KHR` while the rebuilt chain
reports 4 images.  After the rebuild there are 4 image views and 4
framebuffers but still only 3 per-image uniform buffers, because
`Engine::recreateSwapChain` never calls `createUniformBuffer`; the claim
demands all three counts equal 4. -/
theorem c1_counterexample :
    (drawFrame VkResult.errorOutOfDateKHR 0 VkResult.success 0 4
        (initVulkanState 3 { isCleaned := false })).map
      (fun r => (r.1.imageViews, r.1.framebuffers, r.1.uniformBuffers.length)) =
    Except.ok (4, 4, 3) := by decide

/-- Claim C1, amended: after any swapchain rebuild the image-view count
and the framebuffer count both equal the image count retrieved from the
newly created chain, while the per-image uniform buffers are left
untouched, so their count stays at the image count of the initial
creation. -/
theorem c1_rebuild_counts (retrieved : Nat) (s : EngineState) :
    (recreateSwapChainState retrieved s).imageViews = retrieved ∧
    (recreateSwapChainState retrieved s).framebuffers = retrieved ∧
    (recreateSwapChainState retrieved s).uniformBuffers = s.uniformBuffers := by
  simp [recreateSwapChainState, createSwapChainState, createFramebuffersState,
    createPrimaryCommandBufferState, createSecondaryCommandBuffersState]

/-! ## Claim C2 -/

/-- Counterexample to claim C2: with 2 swapchain images,
`createDescriptorSets` does make descriptor set 1 reference uniform
buffer 1 (second conjunct), but the command buffer recorded for image 1
never binds a descriptor set referencing uniform buffer 1: line 1161 of
Engine.cpp binds `&m_descriptorSets[0]` for every image. -/
theorem c2_counterexample :
    DrawCmd.bindDescriptorSets 1 ∉
      (initVulkanState 2 { isCleaned := false, meshFaceCount := 5 }).secondaryRecordings.getD 1 [] ∧
    (initVulkanState 2 { isCleaned := false, meshFaceCount := 5 }).descriptorSets.getD 1 0 = 1 := by
  decide

/-- Claim C2, amended: the command buffer recorded for every image `i`
binds descriptor set 0 — the set holding image 0's uniform buffer —
(immediately) before issuing the indexed draw over all
`faces.size() * 3` mesh indices; the per-image descriptor sets with
index above 0 are never bound. -/
theorem c2_secondary_binding (n faceCount i : Nat) (h : 0 < n) :
    secondaryCommandsFor (List.range n) faceCount i =
      [DrawCmd.setViewport, DrawCmd.bindPipeline, DrawCmd.bindVertexBuffers 0 0,
       DrawCmd.bindIndexBuffer 0, DrawCmd.bindDescriptorSets 0,
       DrawCmd.drawIndexed (faceCount * 3)] := by
  cases n with
  | zero => exact absurd h (by simp)
  | succ m => simp [secondaryCommandsFor, List.range_succ_eq_map]

/-- Witness for `c2_secondary_binding` at `n = 2`, `faceCount = 5`,
`i = 1`. -/
theorem c2_secondary_binding_witness :
    secondaryCommandsFor (List.range 2) 5 1 =
      [DrawCmd.setViewport, DrawCmd.bindPipeline, DrawCmd.bindVertexBuffers 0 0,
       DrawCmd.bindIndexBuffer 0, DrawCmd.bindDescriptorSets 0,
       DrawCmd.drawIndexed 15] :=
  c2_secondary_binding 2 5 1 (by decide)

/-! ## Claim C3 -/

/-- Counterexample to claim C3: on a device whose two queue families
both offer graphics, transfer and presentation with non-zero queue
count, `findQueueFamilies` returns index 1 for all three capabilities —
each loop iteration overwrites the recorded indices, and the early-stop
condition `isComplete() && transferAvailable()` is false at family 0
because the transfer index equals the graphics index there — whereas the
smallest index offering each capability is 0. -/
theorem c3_counterexample :
    findQueueFamilies c3Families =
      { graphicsFamily := 1, presentingFamily := 1, transferFamily := 1 } ∧
    firstFamilyIdx (fun f => f.graphics) c3Families = 0 ∧
    firstFamilyIdx (fun f => f.transfer) c3Families = 0 ∧
    firstFamilyIdx (fun f => f.presentSupport) c3Families = 0 := by decide

/-- Claim C3, amended: `findQueueFamilies` scans the family list once
and records, for each of the graphics, transfer and presentation
capabilities, the most recently scanned family index (with non-zero
queue count) offering it, overwriting earlier matches; the scan stops
early only once the graphics and presentation indices are valid and a
transfer index valid and distinct from the graphics index has been
recorded. -/
theorem c3_scan_semantics (families : List QueueFamilyProps) :
    findQueueFamilies families = toQueueFamilyIndices (findQueueFamiliesAmended families) := by
  unfold findQueueFamilies findQueueFamiliesAmended
  exact findQueueFamiliesAux_amended families 0 {}

/-! ## Claim C4 -/

/-- Counterexample to claim C4: in the teardown sequence of
`Engine::cleanUpSwapChain` run on a chain with 2 framebuffers and 2
image views, the depth attachment's image view is destroyed strictly
before the pipeline and before the render pass, whereas the claim puts
the pipeline and the render pass before the depth/color attachments. -/
theorem c4_counterexample :
    List.indexOf DestroyEvent.depthImageView
        (cleanUpSwapChainEvents { framebuffers := 2, imageViews := 2, isCleaned := false }) <
      List.indexOf DestroyEvent.pipeline
        (cleanUpSwapChainEvents { framebuffers := 2, imageViews := 2, isCleaned := false }) ∧
    List.indexOf DestroyEvent.depthImageView
        (cleanUpSwapChainEvents { framebuffers := 2, imageViews := 2, isCleaned := false }) <
      List.indexOf DestroyEvent.renderPass
        (cleanUpSwapChainEvents { framebuffers := 2, imageViews := 2, isCleaned := false }) := by
  decide

/-- Claim C4, amended: on every swapchain recreation the
swapchain-dependent objects are destroyed in exactly this order:
framebuffers first, then the primary and secondary command buffers are
freed, then the depth attachment (view, image, memory), then the colour
attachment (view, image, memory), then the pipeline, the pipeline layout
and the render pass, then the image views, and the chain itself last —
in particular views and framebuffers are destroyed before the chain. -/
theorem c4_cleanup_swapchain_order (s : EngineState) :
    cleanUpSwapChainEvents s =
      (List.range s.framebuffers).map DestroyEvent.framebuffer
      ++ [DestroyEvent.freeSecondaryCommandBuffers, DestroyEvent.freePrimaryCommandBuffers,
          DestroyEvent.depthImageView, DestroyEvent.depthImage, DestroyEvent.depthMemory,
          DestroyEvent.colorImageView, DestroyEvent.colorImage, DestroyEvent.colorMemory,
          DestroyEvent.pipeline, DestroyEvent.pipelineLayout, DestroyEvent.renderPass]
      ++ (List.range s.imageViews).map DestroyEvent.imageView
      ++ [DestroyEvent.swapchain] := by
  simp [cleanUpSwapChainEvents, foldl_append_map]

/-! ## Claim C5 -/

/-- Counterexample to claim C5: a `drawFrame` call that acquires image
index 0 on a 2-image chain with both uniform buffers holding the
abstract value 0 leaves image 1's uniform buffer holding the fresh value
7 — `Engine::updateUniformBuffer` ignores its `imageIndex` parameter and
writes every buffer — whereas the claim says the buffers of images other
than the acquired one are left unchanged. -/
theorem c5_counterexample :
    (updateUniformBufferState 7 0
        { imageViews := 2, uniformBuffers := [0, 0], isCleaned := false }).uniformBuffers
      = [7, 7] ∧
    (drawFrame VkResult.success 0 VkResult.success 7 2
        (initVulkanState 2 { isCleaned := false })).map
      (fun r => r.1.uniformBuffers) = Except.ok [7, 7] := by decide

/-- Claim C5, amended: during a `drawFrame` call the uniform buffers of
every swapchain image — not only the acquired one — are written with the
same freshly computed matrices and light position. -/
theorem c5_uniform_update_writes_all (ubo imageIndex : Nat) (s : EngineState)
    (h : s.uniformBuffers.length = s.imageViews) :
    (updateUniformBufferState ubo imageIndex s).uniformBuffers =
      List.replicate s.imageViews ubo := by
  have hall := mapIdx_eq_replicate s.uniformBuffers
    (fun i old => if i < s.imageViews then ubo else old) ubo
    (fun i a hi => by rw [h] at hi; simp [hi])
  simp [updateUniformBufferState, hall, h]

/-- Witness for `c5_uniform_update_writes_all` on a 2-image chain. -/
theorem c5_uniform_update_writes_all_witness :
    (updateUniformBufferState 7 0
        { imageViews := 2, uniformBuffers := [0, 0], isCleaned := false }).uniformBuffers =
      List.replicate 2 7 :=
  c5_uniform_update_writes_all 7 0
    { imageViews := 2, uniformBuffers := [0, 0], isCleaned := false } rfl

/-! ## Claim C6 -/

/-- Counterexample to claim C6: with a dedicated transfer family (index
1) distinct from the graphics family (index 0), `utils::createImage`
still creates the image with exclusive sharing mode — it does not even
receive the queue family indices — whereas the claim says every image is
then created with concurrent sharing listing both families. -/
theorem c6_counterexample :
    QueueFamilyIndices.transferAvailable
        { graphicsFamily := 0, presentingFamily := 0, transferFamily := 1 } = true ∧
    (createImage 640 480).sharingMode = SharingMode.exclusive := by decide

/-- Claim C6, amended: every buffer created by `utils::createBuffer`
follows the sharing policy — concurrent across the graphics and transfer
family indices when a dedicated transfer family distinct from the
graphics family exists, exclusive otherwise — but every image created by
`utils::createImage` uses exclusive sharing mode unconditionally. -/
theorem c6_sharing_policy (indices : QueueFamilyIndices) (size width height : Nat) :
    ((createBuffer indices size).sharingMode =
      if indices.transferAvailable then SharingMode.concurrent else SharingMode.exclusive) ∧
    ((createBuffer indices size).queueFamilyIndices =
      if indices.transferAvailable then [indices.graphicsFamily, indices.transferFamily]
      else [indices.graphicsFamily]) ∧
    (createImage width height).sharingMode = SharingMode.exclusive := by
  by_cases h : indices.transferAvailable = true <;>
    simp [createBuffer, createImage, h]

/-! ## Claim C7 -/

/-- Claim C7, confirmed: when `vkAcquireNextImageKHR` reports
`VK_ERROR_OUT_OF_DATE_KHR`, `drawFrame` rebuilds the swapchain, issues
no submit and no present, and returns with the current frame index
unchanged; when acquisition reports any result other than success,
suboptimal or out-of-date, `drawFrame` throws
"failed to acquire swap chain image!". -/
theorem c7_drawFrame_acquire_handling (imageIndex : Nat) (presentResult : VkResult)
    (freshUbo retrieved : Nat) (s : EngineState) :
    (∃ s1 : EngineState,
        drawFrame VkResult.errorOutOfDateKHR imageIndex presentResult freshUbo retrieved s =
          Except.ok (s1, { submitCount := 0, presentCount := 0, swapchainRecreated := true }) ∧
        s1.currentFrame = s.currentFrame) ∧
    (∀ r : VkResult, r ≠ VkResult.success → r ≠ VkResult.suboptimalKHR →
        r ≠ VkResult.errorOutOfDateKHR →
        drawFrame r imageIndex presentResult freshUbo retrieved s =
          Except.error "failed to acquire swap chain image!") := by
  constructor
  · refine ⟨recreateSwapChainState retrieved
        (resetFenceState (checkApplicationState s).currentFrame (checkApplicationState s)),
      by simp [drawFrame], ?_⟩
    simp [recreateSwapChainState, createSwapChainState, createFramebuffersState,
      createPrimaryCommandBufferState, createSecondaryCommandBuffersState,
      resetFenceState, checkApplicationState_currentFrame]
  · intro r h1 h2 h3
    simp [drawFrame, h1, h2, h3]

/-- Witness for `c7_drawFrame_acquire_handling`: a device-lost
acquisition result on a concrete state is a fatal error. -/
theorem c7_drawFrame_acquire_handling_witness :
    drawFrame VkResult.errorDeviceLost 0 VkResult.success 1 2 { isCleaned := false } =
      Except.error "failed to acquire swap chain image!" :=
  (c7_drawFrame_acquire_handling 0 VkResult.success 1 2 { isCleaned := false }).2
    VkResult.errorDeviceLost (by decide) (by decide) (by decide)

/-! ## Claim C8 -/

/-- Claim C8, confirmed: `Engine::cleanup` is idempotent.  Whatever the
state, a second `cleanup` call after a first one performs no destruction
calls and leaves the engine state exactly as the first call left it —
the `m_isCleaned` guard flag set by the first call makes the second call
a no-op. -/
theorem c8_cleanup_idempotent (s : EngineState) :
    cleanup (cleanup s).1 = ((cleanup s).1, []) := by
  by_cases h : s.isCleaned = true <;> simp [cleanup, h]

/-! ## Claim C9 -/

/-- Claim C9, confirmed: `Engine::createSyncObjects` creates exactly
`MAX_FRAMES_IN_FLIGHT` in-flight fences, each in the signaled state
(`VK_FENCE_CREATE_SIGNALED_BIT`), so the first `drawFrame` wait on any
frame slot's fence does not block. -/
theorem c9_fences_created_signaled (s : EngineState) (i : Nat)
    (h : i < MAX_FRAMES_IN_FLIGHT) :
    (createSyncObjectsState s).inFlightFences.length = MAX_FRAMES_IN_FLIGHT ∧
    ((createSyncObjectsState s).inFlightFences.getD i { signaled := false }).signaled = true ∧
    fenceWaitBlocks
      ((createSyncObjectsState s).inFlightFences.getD i { signaled := false }) = false := by
  have hfences : (createSyncObjectsState s).inFlightFences =
      [{ signaled := true }, { signaled := true }] := rfl
  have hi : i = 0 ∨ i = 1 := by
    unfold MAX_FRAMES_IN_FLIGHT at h
    omega
  rcases hi with rfl | rfl <;> rw [hfences] <;> decide

/-- Witness for `c9_fences_created_signaled` at slot 0. -/
theorem c9_fences_created_signaled_witness :
    (createSyncObjectsState {}).inFlightFences.length = MAX_FRAMES_IN_FLIGHT ∧
    ((createSyncObjectsState {}).inFlightFences.getD 0 { signaled := false }).signaled = true ∧
    fenceWaitBlocks
      ((createSyncObjectsState {}).inFlightFences.getD 0 { signaled := false }) = false :=
  c9_fences_created_signaled {} 0 (by decide)

/-! ## Claim C10 -/

/-- Claim C10, confirmed: the dirty-flag scan of
`Engine::checkApplicationState` acts only on `modelModified` — when set
it re-records the command buffers and clears that flag, when clear it
does nothing; `materialModified` is never acted upon and never cleared,
and with only `materialModified` set the scan changes no engine state
across any number of invocations. -/
theorem c10_dirty_flag_scan (s : EngineState) :
    (checkApplicationState s =
      if s.applicationChanges.modelModified = true then
        { recreateCommandBufferState s with
            applicationChanges :=
              { (recreateCommandBufferState s).applicationChanges with modelModified := false } }
      else s) ∧
    (checkApplicationState s).applicationChanges.materialModified
      = s.applicationChanges.materialModified ∧
    (s.applicationChanges.modelModified = false →
      ∀ n : Nat, checkApplicationState^[n] s = s) := by
  refine ⟨checkApplicationState_eq s, ?_, ?_⟩
  · rw [checkApplicationState_eq]
    by_cases h : s.applicationChanges.modelModified = true <;>
      simp [h, recreateCommandBufferState, createPrimaryCommandBufferState,
        createSecondaryCommandBuffersState]
  · intro h n
    induction n with
    | zero => rfl
    | succ n ih =>
      rw [Function.iterate_succ_apply, checkApplicationState_eq, if_neg (by simp [h]), ih]

/-- Witness for `c10_dirty_flag_scan`: three scans on a state with only
`materialModified` set leave it untouched. -/
theorem c10_dirty_flag_scan_witness :
    checkApplicationState^[3]
        { applicationChanges := { materialModified := true }, isCleaned := false } =
      ({ applicationChanges := { materialModified := true }, isCleaned := false } : EngineState) :=
  (c10_dirty_flag_scan
    { applicationChanges := { materialModified := true }, isCleaned := false }).2.2 rfl 3

end VulkanPlayground
